import Mathlib

/-!
Shallow embedding of the quiz application in `app.py` (a Streamlit app:
question-bank loading, quiz session state machine, timer, navigation,
scoring) together with theorems checking the specification's claims
against it.

Conventions of the embedding:
* `pandas` missing values (`NaN`) are modelled as `none : Option String`.
* Streamlit's `st.session_state` is a record `SessionState`; the fact that
  a key may be absent from the dict (before `initialise_session`, or after
  the reset deletes every key) is modelled by `Option SessionState`
  (`none` = no key present; partial presence never occurs in the program).
* `time.time()` instants are integers (seconds).
* Randomness of `pandas.DataFrame.sample` is an explicit oracle argument:
  a permutation `order` of the row indices; sampling `n` rows without
  replacement takes the first `n` indices of that permutation.
* A Python statement that would raise an uncaught exception mid-function is
  modelled by returning the state mutated so far together with a failure
  flag (Streamlit keeps `st.session_state` mutations made before a raise),
  or by `Option`/guard clauses where the raise aborts a read-only render.
-/

namespace QuizApp

/-- `str(x)` for an optional string cell: Python prints `None` for an absent
value (used on `user_answers[i]` in `render_results`). -/
def pyStr : Option String → String
  | none => "None"
  | some s => s

/-- `str(x)` as applied by `DataFrame.astype(str)` to a cell: a `NaN` cell
prints as `nan` (used on the `correct` column in `load_questions`). -/
def pyAstypeStr : Option String → String
  | none => "nan"
  | some s => s

/-- The whitespace characters removed by Python's `str.strip()` (the
ASCII ones; the labels and cells compared here are ASCII). -/
def pyIsSpace (c : Char) : Bool :=
  c == ' ' || c == '\t' || c == '\n' || c == '\x0b' || c == '\x0c' || c == '\r'

/-- Python's `str.strip()`: drop leading and trailing whitespace. -/
def pyStrip (s : String) : String :=
  String.mk (((s.data.dropWhile pyIsSpace).reverse.dropWhile pyIsSpace).reverse)

/-- Python's `str.upper()` (on the ASCII range the compared values use). -/
def pyUpper (s : String) : String :=
  String.mk (s.data.map Char.toUpper)

/-- Python's `.strip().upper()` normalisation chain. -/
def stripUpper (s : String) : String := pyUpper (pyStrip s)

/-- A row of the cleaned question table returned by `load_questions`:
columns `index, question, A, B, C, D, E, correct, reference, clause`,
where `correct` has been through `astype(str).str.strip().str.upper()`
and the other columns are raw optional cells. -/
structure Question where
  index : Option String
  question : Option String
  A : Option String
  B : Option String
  C : Option String
  D : Option String
  E : Option String
  correct : String
  reference : Option String
  clause : Option String
deriving Repr, DecidableEq

/-- Default row used to model positional access (`df.iloc[i]`) at a
position that is in range in every reachable state; theorems carry the
range hypotheses so this default is never what a proof rests on. -/
def qdef : Question :=
  { index := none, question := none, A := none, B := none, C := none,
    D := none, E := none, correct := "", reference := none, clause := none }

/-- A raw row of `Sheet1` of the source spreadsheet, with the
source-specific Vietnamese headers (transliterated to Lean identifiers):
`TT`, `Câu hỏi`, `Phương án A` … `Phương án E`, `Đ.án đúng`,
`Số văn bản tham chiếu (kèm trích yếu văn bản)`,
`Điều khoản tham chiếu cụ thể`. -/
structure SourceRow where
  tt : Option String
  cauHoi : Option String
  phuongAnA : Option String
  phuongAnB : Option String
  phuongAnC : Option String
  phuongAnD : Option String
  phuongAnE : Option String
  dAnDung : Option String
  soVanBan : Option String
  dieuKhoan : Option String
deriving Repr, DecidableEq

/-- A renamed row viewed through the canonical columns, before the
`correct` column is normalised (so `correct` may still be missing). -/
structure RawRow where
  index : Option String
  question : Option String
  A : Option String
  B : Option String
  C : Option String
  D : Option String
  E : Option String
  correct : Option String
  reference : Option String
  clause : Option String
deriving Repr, DecidableEq

/-- `df.rename(columns=...)`: the canonical view of a source row
(`TT ↦ index`, `Câu hỏi ↦ question`, `Phương án X ↦ X`,
`Đ.án đúng ↦ correct`, reference/clause headers likewise). -/
def renamed (r : SourceRow) : RawRow :=
  { index := r.tt, question := r.cauHoi, A := r.phuongAnA, B := r.phuongAnB,
    C := r.phuongAnC, D := r.phuongAnD, E := r.phuongAnE,
    correct := r.dAnDung, reference := r.soVanBan, clause := r.dieuKhoan }

/-- The `df["correct"] = df["correct"].astype(str).str.strip().str.upper()`
step applied to one (already renamed, question-present) row. -/
def normaliseCorrect (r : RawRow) : Question :=
  { index := r.index, question := r.question, A := r.A, B := r.B, C := r.C,
    D := r.D, E := r.E, correct := stripUpper (pyAstypeStr r.correct),
    reference := r.reference, clause := r.clause }

/-- `load_questions` on a parsed sheet: rename the headers, keep the rows
whose `question` cell is not `NaN` (`df[df["question"].notna()]`), then
normalise the `correct` column. The dropped unused column
(`Unnamed: 10`) carries no data and is not modelled. -/
def load_questions (rows : List SourceRow) : List Question :=
  (((rows.map renamed).filter (fun r => r.question.isSome)).map normaliseCorrect)

/-- Streamlit session state: the keys installed by `initialise_session`
and mutated by the app. `questions` is `None` until a quiz starts
(`Option (List Question)`), `start_time` is `None` until then too. -/
structure SessionState where
  quiz_started : Bool
  quiz_ended : Bool
  num_questions : Nat
  questions : Option (List Question)
  current_q : Nat
  answers : List (Option String)
  start_time : Option Int
deriving Repr, DecidableEq

/-- The `state_defaults` dict of `initialise_session`. -/
def state_defaults : SessionState :=
  { quiz_started := false, quiz_ended := false, num_questions := 0,
    questions := none, current_q := 0, answers := [], start_time := none }

/-- `initialise_session`: each key absent from `st.session_state` is set
to its default. `none` models a state with no keys (fresh process, or
right after the reset deleted them all); a present state has every key,
so the function is then the identity. -/
def initialise_session : Option SessionState → SessionState
  | none => state_defaults
  | some s => s

/-- The restart button of `render_results`: `del st.session_state[key]`
for every key, so no key remains. -/
def reset_session (_ : SessionState) : Option SessionState := none

/-- The three lifecycle phases of the spec, read off the two flags:
`Setup` before `quiz_started`, then `InProgress`, then `Ended` once
`quiz_ended`. -/
inductive Phase where
  | Setup
  | InProgress
  | Ended
deriving Repr, DecidableEq

/-- The phase encoded by the `quiz_started` / `quiz_ended` flags. -/
def phase (s : SessionState) : Phase :=
  if s.quiz_started = false then Phase.Setup
  else if s.quiz_ended then Phase.Ended
  else Phase.InProgress

/-- `df.sample(n, replace=False)` with the randomness oracle `order` (a
permutation of the row indices): the first `n` indices of `order` pick the
rows; pandas raises `ValueError` when `n` exceeds the population. -/
def pd_sample (df : List Question) (n : Nat) (order : List Nat) :
    Except String (List Question) :=
  if n ≤ df.length then
    Except.ok ((order.take n).map (fun i => df.getD i qdef))
  else
    Except.error "Cannot take a larger sample than population when replace is False"

/-- `start_quiz(df, num_questions)`. The first three session keys are
assigned before `df.sample` runs, so when sampling raises the returned
state keeps those mutations and the flag is `false` (failure); on success
every key is set and the flag is `true`. -/
def start_quiz (df : List Question) (num_questions : Nat) (order : List Nat)
    (now : Int) (s : SessionState) : SessionState × Bool :=
  let s1 : SessionState :=
    { s with quiz_started := true, quiz_ended := false,
             num_questions := num_questions }
  match pd_sample df num_questions order with
  | Except.error _ => (s1, false)
  | Except.ok sampled =>
      ({ s1 with questions := some sampled, current_q := 0,
                 answers := List.replicate num_questions none,
                 start_time := some now }, true)

/-- The `⬅ Quay lại` button of `render_question`: disabled at index 0
(no click possible, state unchanged), otherwise `current_q -= 1`. -/
def navigate_previous (s : SessionState) : SessionState :=
  if s.current_q = 0 then s
  else { s with current_q := s.current_q - 1 }

/-- The `Tiếp theo ➡` button of `render_question`: rendered only while
`idx < total - 1`, and then `current_q += 1`; at the last index the
button does not exist, so the state is unchanged. -/
def navigate_next (s : SessionState) : SessionState :=
  if s.current_q < s.num_questions - 1 then
    { s with current_q := s.current_q + 1 }
  else s

/-- The `Nộp bài ✅` button of `render_question`: rendered only at
`idx = total - 1` (the `else` branch), and then sets `quiz_ended`;
at an earlier index the button does not exist, so nothing happens. -/
def submit_quiz (s : SessionState) : SessionState :=
  if s.current_q < s.num_questions - 1 then s
  else { s with quiz_ended := true }

/-- `render_timer(total_seconds)`: computes
`remaining = total_seconds - (time.time() - start_time)` and, when
`remaining <= 0`, sets `quiz_ended = True`. With `start_time` still
`None` the subtraction raises `TypeError` (modelled `none`); in every
reachable started session `start_time` is set. -/
def render_timer (total_seconds : Int) (now : Int) (s : SessionState) :
    Option SessionState :=
  match s.start_time with
  | none => none
  | some start =>
      let elapsed : Int := now - start
      let remaining : Int := total_seconds - elapsed
      if remaining ≤ 0 then some { s with quiz_ended := true } else some s

/-- One render pass of `main` up to the point where the phase is
observed: `initialise_session` (identity on a present state), then, when
the quiz has started, `render_timer(3600)` runs before either
`render_results` or `render_question` is chosen. -/
def main_read (now : Int) (d : Option SessionState) : Option SessionState :=
  let s := initialise_session d
  if s.quiz_started then render_timer 3600 now s else some s

/-- The option list built by `render_question`: the `(key, text)` pairs
whose cell is not `NaN`, in declared A–E order, projected to the keys
(`option_keys`). -/
def optionKeys (q : Question) : List String :=
  ((["A", "B", "C", "D", "E"].zip
      [q.A, q.B, q.C, q.D, q.E]).filter (fun p => p.2.isSome)).map
    (fun p => p.1)

/-- The answer-recording effect of one `render_question` pass in which the
user makes no new selection: the radio defaults to the previously stored
answer when it is among `option_keys` (`preselect`), else to index 0, and
the widget value is written back (`st.session_state.answers[idx] = choice`;
`st.radio` returns `None` when the option list is empty). Reads that would
raise (`questions` still `None`, or an out-of-range index) leave the state
as the raise aborts the render before the assignment. -/
def render_record_default (s : SessionState) : SessionState :=
  match s.questions with
  | none => s
  | some qs =>
      match qs[s.current_q]? with
      | none => s
      | some q =>
          let keys := optionKeys q
          match s.answers[s.current_q]? with
          | none => s
          | some prev =>
              let preselect : Option Nat :=
                match prev with
                | some p => if p ∈ keys then some (keys.indexOf p) else none
                | none => none
              let choice : Option String := keys[preselect.getD 0]?
              { s with answers := s.answers.set s.current_q choice }

/-- The per-position correctness test of `render_results`:
`str(user_key).strip().upper() == str(correct_key).strip().upper()`. -/
def answerIsCorrect (q : Question) (userKey : Option String) : Bool :=
  stripUpper (pyStr userKey) == stripUpper q.correct

/-- The `correct_list` of `render_results`: one Boolean per position
`i ∈ range(total)`, comparing `user_answers[i]` against
`df.iloc[i]["correct"]`. -/
def correct_list (qs : List Question) (ans : List (Option String))
    (total : Nat) : List Bool :=
  (List.range total).map (fun i => answerIsCorrect (qs.getD i qdef) (ans.getD i none))

/-- `num_correct = sum(correct_list)`. -/
def num_correct (qs : List Question) (ans : List (Option String))
    (total : Nat) : Nat :=
  (correct_list qs ans total).count true

/-- `score_percent = (num_correct / total) * 100`, as the exact rational
the Python float computes from. -/
def score_percent (qs : List Question) (ans : List (Option String))
    (total : Nat) : ℚ :=
  ((num_correct qs ans total : ℚ) / (total : ℚ)) * 100

/-- The one-decimal display `f"{score_percent:.1f}"`, as tenths: the
displayed string shows `displayTenths x / 10` (round to nearest; the
values compared here are not ties, so the tie-breaking convention of the
float formatter does not matter). -/
def displayTenths (x : ℚ) : ℤ := ⌊10 * x + 1 / 2⌋

/-- The user-action / render steps that can happen between answering a
question and scoring: the two navigation buttons and a render pass in
which the user makes no new selection. -/
inductive NavOp where
  | prev
  | next
  | render
deriving Repr, DecidableEq

/-- Apply one step. -/
def nav_step (op : NavOp) (s : SessionState) : SessionState :=
  match op with
  | NavOp.prev => navigate_previous s
  | NavOp.next => navigate_next s
  | NavOp.render => render_record_default s

/-- Apply a sequence of steps in order. -/
def run_steps (ops : List NavOp) (s : SessionState) : SessionState :=
  ops.foldl (fun st op => nav_step op st) s

/-- A concrete bank row used in examples: options A–D present, correct
label `c`. -/
def exQ (c : String) : Question :=
  { qdef with question := some "q", A := some "ta", B := some "tb",
              C := some "tc", D := some "td", correct := c }

/-- The three-question bank of the spec's scoring example, with correct
labels `["A", "B", "C"]`. -/
def exBank : List Question := [exQ "A", exQ "B", exQ "C"]

/-- The user answers of the spec's scoring example: `["A", "b", "D"]`. -/
def exAns : List (Option String) := [some "A", some "b", some "D"]

/-- A source row whose `Câu hỏi` cell holds the empty string (present,
but empty). -/
def emptyQuestionRow : SourceRow :=
  { tt := some "1", cauHoi := some "", phuongAnA := some "x",
    phuongAnB := none, phuongAnC := none, phuongAnD := none,
    phuongAnE := none, dAnDung := some " a ", soVanBan := none,
    dieuKhoan := none }

/-- An ordinary source row with a present question. -/
def exRow : SourceRow :=
  { tt := some "1", cauHoi := some "What?", phuongAnA := some "x",
    phuongAnB := some "y", phuongAnC := none, phuongAnD := none,
    phuongAnE := none, dAnDung := some " a ", soVanBan := none,
    dieuKhoan := none }

/-- A concrete in-progress session over a two-question sample, first
question answered `A`, used to instantiate the theorems. -/
def exSession : SessionState :=
  { quiz_started := true, quiz_ended := false, num_questions := 2,
    questions := some [exQ "A", exQ "B"], current_q := 0,
    answers := [some "A", none], start_time := some 0 }

/-! ## Theorems -/

/-- Reading back a list through `getD` at every index of `range` returns
the list itself. -/
theorem map_getD_range {α : Type} (l : List α) (d : α) :
    (List.range l.length).map (fun i => l.getD i d) = l := by
  apply List.ext_getElem
  · simp
  · intro i h1 h2
    simp [List.getD_eq_getElem?_getD, List.getElem?_eq_getElem h2]

/-- C4 (amended): a `start_quiz` with `requestedCount` above the bank size
fails (pandas raises before the sample is assigned), leaving
`sampledQuestions`, `answers`, `currentIndex` and `startTimestamp`
untouched — but `quiz_started`, `quiz_ended` and `num_questions` were
already assigned before the raise, so the session does not remain in the
`Setup` phase. -/
theorem start_quiz_insufficient (df : List Question) (n : Nat)
    (order : List Nat) (now : Int) (s : SessionState)
    (h : df.length < n) :
    start_quiz df n order now s =
      ({ s with quiz_started := true, quiz_ended := false,
                num_questions := n }, false) ∧
    phase (start_quiz df n order now s).1 ≠ Phase.Setup := by
  have hns : ¬ n ≤ df.length := not_le.mpr h
  constructor
  · unfold start_quiz pd_sample
    rw [if_neg hns]
  · unfold start_quiz pd_sample
    rw [if_neg hns]
    simp [phase]

/-- C4 counterexample: starting with `requestedCount = 10` on an empty
bank fails, yet the resulting session is mutated and its phase is no
longer `Setup` — refuting the claim that the session remains unchanged in
the `Setup` phase. -/
theorem start_quiz_insufficient_counterexample :
    (start_quiz [] 10 [] 0 state_defaults).2 = false ∧
    (start_quiz [] 10 [] 0 state_defaults).1 ≠ state_defaults ∧
    phase (start_quiz [] 10 [] 0 state_defaults).1 ≠ Phase.Setup := by
  decide

/-- Witness for `start_quiz_insufficient` at the empty bank. -/
theorem start_quiz_insufficient_witness :
    start_quiz [] 10 [] 0 state_defaults =
      ({ state_defaults with quiz_started := true, quiz_ended := false,
                             num_questions := 10 }, false) ∧
    phase (start_quiz [] 10 [] 0 state_defaults).1 ≠ Phase.Setup :=
  start_quiz_insufficient [] 10 [] 0 state_defaults (by decide)

/-- C5: on a session whose index satisfies the bounds invariant, each
navigation button preserves it, moves the index by exactly one step when
it acts, is refused (state unchanged) at index `0` for previous, and is
refused at the last index for next. -/
theorem navigation_bounds (s : SessionState)
    (hub : s.current_q ≤ s.num_questions - 1) :
    (navigate_previous s).current_q ≤ s.num_questions - 1 ∧
    (navigate_next s).current_q ≤ s.num_questions - 1 ∧
    (s.current_q = 0 → navigate_previous s = s) ∧
    (0 < s.current_q → (navigate_previous s).current_q = s.current_q - 1) ∧
    (s.current_q = s.num_questions - 1 → navigate_next s = s) ∧
    (s.current_q < s.num_questions - 1 →
      (navigate_next s).current_q = s.current_q + 1) := by
  refine ⟨?_, ?_, ?_, ?_, ?_, ?_⟩
  · unfold navigate_previous
    by_cases h0 : s.current_q = 0
    · rw [if_pos h0]
      exact hub
    · rw [if_neg h0]
      show s.current_q - 1 ≤ s.num_questions - 1
      omega
  · unfold navigate_next
    by_cases h : s.current_q < s.num_questions - 1
    · rw [if_pos h]
      show s.current_q + 1 ≤ s.num_questions - 1
      omega
    · rw [if_neg h]
      exact hub
  · intro h0
    unfold navigate_previous
    rw [if_pos h0]
  · intro h0
    unfold navigate_previous
    rw [if_neg (by omega : ¬ s.current_q = 0)]
  · intro hlast
    unfold navigate_next
    rw [if_neg (by omega : ¬ s.current_q < s.num_questions - 1)]
  · intro h
    unfold navigate_next
    rw [if_pos h]

/-- Witness for `navigation_bounds` on the concrete session. -/
theorem navigation_bounds_witness :
    (navigate_previous exSession).current_q ≤ exSession.num_questions - 1 ∧
    (navigate_next exSession).current_q ≤ exSession.num_questions - 1 ∧
    (exSession.current_q = 0 → navigate_previous exSession = exSession) ∧
    (0 < exSession.current_q →
      (navigate_previous exSession).current_q = exSession.current_q - 1) ∧
    (exSession.current_q = exSession.num_questions - 1 →
      navigate_next exSession = exSession) ∧
    (exSession.current_q < exSession.num_questions - 1 →
      (navigate_next exSession).current_q = exSession.current_q + 1) :=
  navigation_bounds exSession (by decide)

/-- C6: on an in-progress session satisfying the bounds invariant, the
submit action ends the quiz exactly when the index is the last one; at an
earlier index the submit button does not exist, so nothing changes. -/
theorem submit_only_at_last (s : SessionState)
    (hub : s.current_q ≤ s.num_questions - 1)
    (he : s.quiz_ended = false) :
    ((submit_quiz s).quiz_ended = true ↔
      s.current_q = s.num_questions - 1) ∧
    (s.current_q ≠ s.num_questions - 1 → submit_quiz s = s) := by
  unfold submit_quiz
  by_cases h : s.current_q < s.num_questions - 1
  · rw [if_pos h]
    refine ⟨?_, fun _ => rfl⟩
    rw [he]
    constructor
    · intro hfalse
      exact absurd hfalse (by decide)
    · intro heq
      omega
  · have heq : s.current_q = s.num_questions - 1 := by omega
    rw [if_neg h]
    exact ⟨iff_of_true rfl heq, fun hne => absurd heq hne⟩

/-- Witness for `submit_only_at_last` on the concrete session. -/
theorem submit_only_at_last_witness :
    ((submit_quiz exSession).quiz_ended = true ↔
      exSession.current_q = exSession.num_questions - 1) ∧
    (exSession.current_q ≠ exSession.num_questions - 1 →
      submit_quiz exSession = exSession) :=
  submit_only_at_last exSession (by decide) (by decide)

/-- C8: deleting every session key (the restart button) and re-running
`initialise_session` yields exactly the fresh defaults: the same state a
freshly initialised process has, with no sampled questions, no answers,
no start timestamp, and the `Setup` phase. -/
theorem reset_round_trip (s : SessionState) :
    initialise_session (reset_session s) = initialise_session none ∧
    initialise_session (reset_session s) = state_defaults ∧
    (initialise_session (reset_session s)).questions = none ∧
    (initialise_session (reset_session s)).answers = [] ∧
    (initialise_session (reset_session s)).start_time = none ∧
    phase (initialise_session (reset_session s)) = Phase.Setup := by
  refine ⟨rfl, rfl, rfl, rfl, rfl, rfl⟩

/-- C2: every read of a started session runs the timer check before a
view is chosen; once `now - startTimestamp ≥ 3600` the read forces the
`Ended` phase — whatever `currentIndex` holds — and every later read
still observes `Ended`, without any submit. -/
theorem timer_forces_ended (s : SessionState) (t now : Int)
    (hstart : s.start_time = some t)
    (hip : phase s = Phase.InProgress)
    (hexp : 3600 ≤ now - t) :
    ∃ s2, main_read now (some s) = some s2 ∧ phase s2 = Phase.Ended ∧
      ∀ now2 : Int, ∃ s3, main_read now2 (some s2) = some s3 ∧
        phase s3 = Phase.Ended := by
  have hst : s.quiz_started = true := by
    by_contra hc
    simp only [Bool.not_eq_true] at hc
    simp [phase, hc] at hip
  have hcond : (3600 : Int) - (now - t) ≤ 0 := by omega
  refine ⟨{ s with quiz_ended := true }, ?_, ?_, ?_⟩
  · simp [main_read, initialise_session, hst, render_timer, hstart, hcond]
  · simp [phase, hst]
  · intro now2
    by_cases hc2 : (3600 : Int) - (now2 - t) ≤ 0
    · refine ⟨{ s with quiz_ended := true }, ?_, ?_⟩
      · simp [main_read, initialise_session, hst, render_timer, hstart, hc2]
      · simp [phase, hst]
    · refine ⟨{ s with quiz_ended := true }, ?_, ?_⟩
      · simp [main_read, initialise_session, hst, render_timer, hstart, hc2]
      · simp [phase, hst]

/-- Witness for `timer_forces_ended`: the concrete session started at
instant 0, read at instant 3600. -/
theorem timer_forces_ended_witness :
    ∃ s2, main_read 3600 (some exSession) = some s2 ∧
      phase s2 = Phase.Ended ∧
      ∀ now2 : Int, ∃ s3, main_read now2 (some s2) = some s3 ∧
        phase s3 = Phase.Ended :=
  timer_forces_ended exSession 0 3600 rfl (by decide) (by decide)

/-- C3: starting with a `requestedCount` within the bank size succeeds
and yields exactly `requestedCount` sampled rows drawn from the bank
without replacement (a subpermutation of the bank, so distinct whenever
the bank rows are), an all-`None` answers array of the same length,
index 0, the start instant, and the `InProgress` phase. -/
theorem start_quiz_valid (df : List Question) (n : Nat) (order : List Nat)
    (now : Int) (s : SessionState)
    (hn : n ≤ df.length) (hperm : order.Perm (List.range df.length)) :
    (start_quiz df n order now s).2 = true ∧
    ∃ sampled : List Question,
      (start_quiz df n order now s).1.questions = some sampled ∧
      sampled.length = n ∧
      sampled.Subperm df ∧
      (df.Nodup → sampled.Nodup) ∧
      (start_quiz df n order now s).1.answers = List.replicate n none ∧
      (∀ a ∈ (start_quiz df n order now s).1.answers, a = none) ∧
      (start_quiz df n order now s).1.current_q = 0 ∧
      (start_quiz df n order now s).1.start_time = some now ∧
      (start_quiz df n order now s).1.num_questions = n ∧
      phase (start_quiz df n order now s).1 = Phase.InProgress := by
  have hres : start_quiz df n order now s =
      ({ s with quiz_started := true, quiz_ended := false,
                num_questions := n,
                questions :=
                  some ((order.take n).map (fun i => df.getD i qdef)),
                current_q := 0, answers := List.replicate n none,
                start_time := some now }, true) := by
    unfold start_quiz pd_sample
    rw [if_pos hn]
  have horder : order.length = df.length := by
    have h := hperm.length_eq
    simpa using h
  have hlen : ((order.take n).map (fun i => df.getD i qdef)).length = n := by
    rw [List.length_map, List.length_take]
    omega
  have hsubperm : ((order.take n).map (fun i => df.getD i qdef)).Subperm df := by
    have h1 : List.Sublist ((order.take n).map (fun i => df.getD i qdef))
        (order.map (fun i => df.getD i qdef)) :=
      (List.take_sublist n order).map _
    have h2 : (order.map (fun i => df.getD i qdef)).Perm df := by
      have h := hperm.map (fun i => df.getD i qdef)
      rwa [map_getD_range] at h
    exact h1.subperm.trans h2.subperm
  have hnodup : df.Nodup →
      ((order.take n).map (fun i => df.getD i qdef)).Nodup := by
    intro hnd
    obtain ⟨l, hlp, hls⟩ := hsubperm
    exact hlp.nodup (hls.nodup hnd)
  refine ⟨by rw [hres], (order.take n).map (fun i => df.getD i qdef),
    by rw [hres], hlen, hsubperm, hnodup, by rw [hres], ?_,
    by rw [hres], by rw [hres], by rw [hres],
    by rw [hres]; simp [phase]⟩
  rw [hres]
  intro a ha
  exact List.eq_of_mem_replicate ha

/-- Witness for `start_quiz_valid`: sampling 2 of the 3 bank rows with
the permutation `[2, 0, 1]`. -/
theorem start_quiz_valid_witness :
    (start_quiz exBank 2 [2, 0, 1] 5 state_defaults).2 = true ∧
    ∃ sampled : List Question,
      (start_quiz exBank 2 [2, 0, 1] 5 state_defaults).1.questions =
        some sampled ∧
      sampled.length = 2 ∧
      sampled.Subperm exBank ∧
      (exBank.Nodup → sampled.Nodup) ∧
      (start_quiz exBank 2 [2, 0, 1] 5 state_defaults).1.answers =
        List.replicate 2 none ∧
      (∀ a ∈ (start_quiz exBank 2 [2, 0, 1] 5 state_defaults).1.answers,
        a = none) ∧
      (start_quiz exBank 2 [2, 0, 1] 5 state_defaults).1.current_q = 0 ∧
      (start_quiz exBank 2 [2, 0, 1] 5 state_defaults).1.start_time =
        some 5 ∧
      (start_quiz exBank 2 [2, 0, 1] 5 state_defaults).1.num_questions = 2 ∧
      phase (start_quiz exBank 2 [2, 0, 1] 5 state_defaults).1 =
        Phase.InProgress :=
  start_quiz_valid exBank 2 [2, 0, 1] 5 state_defaults (by decide) (by decide)

/-- The `correct_list` entry at an in-range position is the per-position
comparison of `render_results`. -/
theorem correct_list_getD (qs : List Question) (ans : List (Option String))
    (total : Nat) (i : Nat) (hi : i < total) :
    (correct_list qs ans total).getD i false =
      answerIsCorrect (qs.getD i qdef) (ans.getD i none) := by
  unfold correct_list
  rw [List.getD_eq_getElem _ _ (by simpa using hi)]
  simp [hi]

/-- In a bank whose normalised correct label is a single letter A–E, the
string `NONE` (the normalisation of Python's `str(None)`) never equals
that label. -/
theorem none_never_matches {c : String}
    (hc : c ∈ (["A", "B", "C", "D", "E"] : List String)) :
    stripUpper (pyStr none) ≠ c := by
  simp only [List.mem_cons, List.not_mem_nil, or_false] at hc
  rcases hc with h | h | h | h | h <;> rw [h] <;> decide

/-- C1 (amended example): for an ended session whose questions, answers
and `total` agree and whose normalised correct labels are single letters
A–E (the data-model invariant), position `i` is scored correct iff the
recorded answer equals the correct label under the case-insensitive,
whitespace-trimmed comparison; an unanswered position is always scored
incorrect; `num_correct` is the number of correct positions; percent is
`100 * correctCount / total`; and on the spec's example (correct labels
`["A","B","C"]`, user answers `["A","b","D"]`) the scorer reports
`correctCount = 2` (case-insensitive matches at positions 0 and 1) with
displayed percent `66.7`. -/
theorem score_correctness (qs : List Question) (ans : List (Option String))
    (total : Nat)
    (_hq : qs.length = total) (_ha : ans.length = total)
    (hc : ∀ i, i < total →
      stripUpper (qs.getD i qdef).correct ∈
        (["A", "B", "C", "D", "E"] : List String)) :
    (∀ i, i < total →
      ((correct_list qs ans total).getD i false = true ↔
        ∃ l, ans.getD i none = some l ∧
          stripUpper l = stripUpper (qs.getD i qdef).correct)) ∧
    (∀ i, i < total → ans.getD i none = none →
      (correct_list qs ans total).getD i false = false) ∧
    num_correct qs ans total =
      ((List.range total).filter
        (fun i => answerIsCorrect (qs.getD i qdef) (ans.getD i none))).length ∧
    score_percent qs ans total =
      100 * (num_correct qs ans total : ℚ) / (total : ℚ) ∧
    num_correct exBank exAns 3 = 2 ∧
    displayTenths (score_percent exBank exAns 3) = 667 := by
  refine ⟨?_, ?_, ?_, ?_, by decide, ?_⟩
  · intro i hi
    rw [correct_list_getD qs ans total i hi]
    unfold answerIsCorrect
    rw [beq_iff_eq]
    cases hcase : ans.getD i none with
    | none =>
        constructor
        · intro heq
          exact absurd heq (none_never_matches (hc i hi))
        · rintro ⟨l, hl, -⟩
          exact Option.noConfusion hl
    | some l =>
        constructor
        · intro heq
          exact ⟨l, rfl, heq⟩
        · rintro ⟨l2, hl2, he2⟩
          have hll : l = l2 := by
            injection hl2
          rw [hll]
          exact he2
  · intro i hi hnone
    rw [correct_list_getD qs ans total i hi, hnone]
    unfold answerIsCorrect
    exact beq_eq_false_iff_ne.mpr (none_never_matches (hc i hi))
  · unfold num_correct correct_list
    rw [List.count_eq_countP]
    rw [List.countP_map]
    rw [List.countP_eq_length_filter]
    congr 1
    apply List.filter_congr
    intro a _
    simp
  · rw [score_percent]
    ring
  · have h2 : num_correct exBank exAns 3 = 2 := by decide
    rw [displayTenths, score_percent, h2]
    rw [Int.floor_eq_iff]
    norm_num

/-- C1 counterexample: on the spec's own example the code marks both
position 0 (an exact match) and position 1 (case-insensitive `b` = `B`)
correct, so `correctCount` is 2, not 1, and the displayed percent is
66.7, not 33.3. -/
theorem score_example_counterexample :
    num_correct exBank exAns 3 = 2 ∧
    num_correct exBank exAns 3 ≠ 1 ∧
    displayTenths (score_percent exBank exAns 3) = 667 ∧
    displayTenths (score_percent exBank exAns 3) ≠ 333 := by
  have h2 : num_correct exBank exAns 3 = 2 := by decide
  have hd : displayTenths (score_percent exBank exAns 3) = 667 := by
    rw [displayTenths, score_percent, h2]
    rw [Int.floor_eq_iff]
    norm_num
  refine ⟨h2, by rw [h2]; decide, hd, by rw [hd]; decide⟩

/-- Witness for `score_correctness` on the three-question example. -/
theorem score_correctness_witness :
    (∀ i, i < 3 →
      ((correct_list exBank exAns 3).getD i false = true ↔
        ∃ l, exAns.getD i none = some l ∧
          stripUpper l = stripUpper (exBank.getD i qdef).correct)) ∧
    (∀ i, i < 3 → exAns.getD i none = none →
      (correct_list exBank exAns 3).getD i false = false) ∧
    num_correct exBank exAns 3 =
      ((List.range 3).filter
        (fun i => answerIsCorrect (exBank.getD i qdef) (exAns.getD i none))).length ∧
    score_percent exBank exAns 3 =
      100 * (num_correct exBank exAns 3 : ℚ) / (3 : ℚ) ∧
    num_correct exBank exAns 3 = 2 ∧
    displayTenths (score_percent exBank exAns 3) = 667 :=
  score_correctness exBank exAns 3 (by decide) (by decide) (by decide)

/-- Helper for C7: one step (either navigation button, or a render pass
with no new selection) keeps the sampled questions and keeps a recorded
answer whose label is among the options of its question. -/
theorem nav_step_preserves (op : NavOp) (s : SessionState)
    (qs : List Question) (q : Question) (i : Nat) (l : String)
    (hqs : s.questions = some qs) (hq : qs[i]? = some q)
    (ha : s.answers[i]? = some (some l)) (hl : l ∈ optionKeys q) :
    (nav_step op s).questions = some qs ∧
    (nav_step op s).answers[i]? = some (some l) := by
  cases op with
  | prev =>
      refine ⟨?_, ?_⟩
      · show (navigate_previous s).questions = some qs
        unfold navigate_previous
        split
        · exact hqs
        · exact hqs
      · show (navigate_previous s).answers[i]? = some (some l)
        unfold navigate_previous
        split
        · exact ha
        · exact ha
  | next =>
      refine ⟨?_, ?_⟩
      · show (navigate_next s).questions = some qs
        unfold navigate_next
        split
        · exact hqs
        · exact hqs
      · show (navigate_next s).answers[i]? = some (some l)
        unfold navigate_next
        split
        · exact ha
        · exact ha
  | render =>
      refine ⟨?_, ?_⟩
      · show (render_record_default s).questions = some qs
        unfold render_record_default
        simp only [hqs]
        cases hq2 : qs[s.current_q]? with
        | none => exact hqs
        | some q2 =>
            cases ha2 : s.answers[s.current_q]? with
            | none => exact hqs
            | some prev => rfl
      · show (render_record_default s).answers[i]? = some (some l)
        unfold render_record_default
        simp only [hqs]
        by_cases hci : s.current_q = i
        · subst hci
          have hlt : s.current_q < s.answers.length := by
            obtain ⟨h, -⟩ := List.getElem?_eq_some.mp ha
            exact h
          simp only [hq, ha]
          rw [if_pos hl]
          simp only [Option.getD_some]
          rw [List.getElem?_indexOf hl]
          exact List.getElem?_set_self hlt
        · cases hq2 : qs[s.current_q]? with
          | none => exact ha
          | some q2 =>
              cases ha2 : s.answers[s.current_q]? with
              | none => exact ha
              | some prev =>
                  change (s.answers.set s.current_q _)[i]? = some (some l)
                  rw [List.getElem?_set_ne hci]
                  exact ha

/-- C7: the navigation buttons never touch the answers array, and any
recorded answer (necessarily one of its question's option labels) at
position `i` survives every sequence of navigation and render steps, so
moving away from `i` and returning shows the same recorded answer. -/
theorem answers_preserved (ops : List NavOp) (s : SessionState)
    (qs : List Question) (q : Question) (i : Nat) (l : String)
    (hqs : s.questions = some qs) (hq : qs[i]? = some q)
    (ha : s.answers[i]? = some (some l)) (hl : l ∈ optionKeys q) :
    (navigate_previous s).answers = s.answers ∧
    (navigate_next s).answers = s.answers ∧
    (run_steps ops s).answers[i]? = some (some l) := by
  refine ⟨?_, ?_, ?_⟩
  · unfold navigate_previous
    split <;> rfl
  · unfold navigate_next
    split <;> rfl
  · induction ops generalizing s with
    | nil => exact ha
    | cons op rest ih =>
        have h := nav_step_preserves op s qs q i l hqs hq ha hl
        exact ih (nav_step op s) h.1 h.2

/-- Witness for `answers_preserved`: answer `A` at position 0 of the
concrete session survives going next, rendering, coming back and
rendering again. -/
theorem answers_preserved_witness :
    (navigate_previous exSession).answers = exSession.answers ∧
    (navigate_next exSession).answers = exSession.answers ∧
    (run_steps [NavOp.next, NavOp.render, NavOp.prev, NavOp.render]
        exSession).answers[0]? = some (some "A") :=
  answers_preserved [NavOp.next, NavOp.render, NavOp.prev, NavOp.render]
    exSession [exQ "A", exQ "B"] (exQ "A") 0 "A"
    rfl (by decide) (by decide) (by decide)

/-- C9 (amended): every row of the loaded bank arises from a source row
through the canonical header mapping, has a present (`notna`) question
cell — possibly the empty string — and carries as `correct` the
trim-then-uppercase normalisation of the source cell. -/
theorem load_questions_shape (rows : List SourceRow) (q : Question)
    (hq : q ∈ load_questions rows) :
    q.question.isSome = true ∧
    ∃ r ∈ rows, q = normaliseCorrect (renamed r) ∧
      q.question = r.cauHoi ∧
      q.correct = stripUpper (pyAstypeStr r.dAnDung) := by
  unfold load_questions at hq
  obtain ⟨raw, hraw, rfl⟩ := List.mem_map.mp hq
  obtain ⟨hmem, hsome⟩ := List.mem_filter.mp hraw
  obtain ⟨r, hr, rfl⟩ := List.mem_map.mp hmem
  exact ⟨hsome, r, hr, rfl, rfl, rfl⟩

/-- C9 counterexample: a source row whose question cell holds the empty
string is not dropped (`notna` only filters missing cells): the loaded
bank keeps a row whose question text is empty, refuting "drops every row
whose question field is empty/missing" and "non-empty question text". -/
theorem load_questions_empty_kept :
    (load_questions [emptyQuestionRow]).length = 1 ∧
    ((load_questions [emptyQuestionRow]).getD 0 qdef).question = some "" ∧
    ((load_questions [emptyQuestionRow]).getD 0 qdef).correct = "A" := by
  decide

/-- Witness for `load_questions_shape` on a one-row source. -/
theorem load_questions_shape_witness :
    (normaliseCorrect (renamed exRow)).question.isSome = true ∧
    ∃ r ∈ [exRow], normaliseCorrect (renamed exRow) =
        normaliseCorrect (renamed r) ∧
      (normaliseCorrect (renamed exRow)).question = r.cauHoi ∧
      (normaliseCorrect (renamed exRow)).correct =
        stripUpper (pyAstypeStr r.dAnDung) :=
  load_questions_shape [exRow] (normaliseCorrect (renamed exRow)) (by decide)

/-- C10: a render pass at the current index always records an answer
there: the previously stored answer when it is among the present option
labels, otherwise the first present option label; with at least one
option present the position is answered after the render. -/
theorem render_records (s : SessionState) (qs : List Question)
    (q : Question) (prev : Option String)
    (hqs : s.questions = some qs)
    (hq : qs[s.current_q]? = some q)
    (ha : s.answers[s.current_q]? = some prev)
    (hne : optionKeys q ≠ []) :
    ∃ l : String,
      (render_record_default s).answers[s.current_q]? = some (some l) ∧
      ((prev = some l ∧ l ∈ optionKeys q) ∨
        ((∀ p, prev = some p → p ∉ optionKeys q) ∧
          (optionKeys q)[0]? = some l)) := by
  have hlt : s.current_q < s.answers.length := by
    obtain ⟨h, -⟩ := List.getElem?_eq_some.mp ha
    exact h
  have hk0 : ∃ k, (optionKeys q)[0]? = some k := by
    have hpos : 0 < (optionKeys q).length := List.length_pos.mpr hne
    exact ⟨(optionKeys q)[0], List.getElem?_eq_getElem hpos⟩
  cases prev with
  | none =>
      obtain ⟨k, hk⟩ := hk0
      refine ⟨k, ?_, Or.inr ⟨fun p hp => Option.noConfusion hp, hk⟩⟩
      unfold render_record_default
      simp only [hqs, hq, ha]
      simp only [Option.getD_none]
      rw [hk]
      exact List.getElem?_set_self hlt
  | some p =>
      by_cases hp : p ∈ optionKeys q
      · refine ⟨p, ?_, Or.inl ⟨rfl, hp⟩⟩
        unfold render_record_default
        simp only [hqs, hq, ha]
        rw [if_pos hp]
        simp only [Option.getD_some]
        rw [List.getElem?_indexOf hp]
        exact List.getElem?_set_self hlt
      · obtain ⟨k, hk⟩ := hk0
        refine ⟨k, ?_, Or.inr ⟨?_, hk⟩⟩
        · unfold render_record_default
          simp only [hqs, hq, ha]
          rw [if_neg hp]
          simp only [Option.getD_none]
          rw [hk]
          exact List.getElem?_set_self hlt
        · intro p2 hp2
          obtain rfl : p = p2 := by
            injection hp2
          exact hp

/-- Witness for `render_records`: the concrete session, at index 0 with
stored answer `A` among the options. -/
theorem render_records_witness :
    ∃ l : String,
      (render_record_default exSession).answers[exSession.current_q]? =
        some (some l) ∧
      ((some "A" = some l ∧ l ∈ optionKeys (exQ "A")) ∨
        ((∀ p, some "A" = some p → p ∉ optionKeys (exQ "A")) ∧
          (optionKeys (exQ "A"))[0]? = some l)) :=
  render_records exSession [exQ "A", exQ "B"] (exQ "A") (some "A")
    rfl (by decide) (by decide) (by decide)

end QuizApp
